import Mathlib

/-!
Shallow embedding of the instance registry and message-state store of
wire-web-e2e-test-service (src/InstanceService.ts).

The external Messaging Client (login, send, logout, message builders) is
modelled through its contract: login results, generated payload ids and the
payloads returned by send are passed in as explicit inputs, and outbound
protocol calls are recorded as an explicit call trace.
-/

/-- Bounded key-value store with least-recently-used eviction, embedding the
LRUCache used for both the instance registry and the per-instance message
caches. Entries are kept most-recently-used first. -/
structure LRUCache (α : Type) where
  capacity : Nat
  entries : List (String × α)
deriving Repr, DecidableEq

/-- Pure lookup of a key in the cache (no recency update); used to state
properties about cache contents. -/
def lookupPure {α : Type} (c : LRUCache α) (k : String) : Option α :=
  (c.entries.find? (fun q => q.1 == k)).map (fun q => q.2)

/-- Cache read: returns the value (or none) and, on a hit, marks the entry
most-recently-used by moving it to the front. -/
def LRUCache.get {α : Type} (c : LRUCache α) (k : String) : Option α × LRUCache α :=
  match c.entries.find? (fun q => q.1 == k) with
  | none => (none, c)
  | some p => (some p.2, { c with entries := p :: c.entries.filter (fun q => !(q.1 == k)) })

/-- Cache write: inserts or updates the entry, marks it most-recently-used,
and evicts from the least-recently-used end when capacity would be
exceeded. -/
def LRUCache.set {α : Type} (c : LRUCache α) (k : String) (v : α) : LRUCache α :=
  { c with entries := ((k, v) :: c.entries.filter (fun q => !(q.1 == k))).take c.capacity }

/-- Cache removal: removes the entry with the given key if present; no error
when absent. -/
def LRUCache.delete {α : Type} (c : LRUCache α) (k : String) : LRUCache α :=
  { c with entries := c.entries.filter (fun q => !(q.1 == k)) }

/-- Cache enumeration: every live entry as a key-to-value mapping. -/
def LRUCache.getAll {α : Type} (c : LRUCache α) : List (String × α) :=
  c.entries

/-- Link preview content: metadata plus optional embedded binary preview
image data. -/
structure LinkPreview where
  title : String
  url : String
  imageData : Option String := none
deriving Repr, DecidableEq

/-- Modelled from the spec: stripLinkPreview (src/utils, file not included in
the sources) removes the embedded binary preview image data from a link
preview, keeping only the metadata, to bound memory. -/
def stripLinkPreview (p : LinkPreview) : LinkPreview :=
  { p with imageData := none }

/-- TextContent: message text with optional link previews, mentions and
quote. -/
structure TextContent where
  text : String
  linkPreviews : Option (List LinkPreview) := none
  mentions : Option (List String) := none
  quote : Option String := none
deriving Repr, DecidableEq

/-- EditedTextContent: the id of the message being replaced plus the new
text. -/
structure EditedTextContent where
  originalMessageId : String
  text : String
  linkPreviews : Option (List LinkPreview) := none
  mentions : Option (List String) := none
  quote : Option String := none
deriving Repr, DecidableEq

/-- AssetContent: optional original-metadata descriptor, optional uploaded
binary data, optional binary preview data. -/
structure AssetContent where
  original : Option String := none
  uploadedData : Option String := none
  previewData : Option String := none
deriving Repr, DecidableEq

/-- ConfirmationContent: confirmation type (0 delivered, 1 read), the primary
target message id, and optional further target message ids. -/
structure ConfirmationContent where
  type : Nat
  firstMessageId : String
  moreMessageIds : Option (List String) := none
deriving Repr, DecidableEq

/-- Confirmation record kept on a confirmed message: the confirmation content
plus the sender (the TS type ConfirmationContent with a from field). -/
structure ConfirmationWithSender where
  type : Nat
  firstMessageId : String
  moreMessageIds : Option (List String) := none
  from_ : String
deriving Repr, DecidableEq

/-- Type-specific content payload of a message, one variant per handled
content shape. -/
inductive Content where
  | text (tc : TextContent)
  | asset (ac : AssetContent)
  | edited (ec : EditedTextContent)
  | cleared (conversationId : String)
  | deleted (messageId : String)
  | hidden (messageId : String)
  | confirmation (cc : ConfirmationContent)
  | location (latitude : Int) (longitude : Int)
  | ping
deriving Repr, DecidableEq

/-- Event type tags emitted by the Messaging Client, one per handler
registered in attachListeners. -/
inductive PayloadBundleType where
  | text
  | asset
  | assetMeta
  | assetImage
  | messageEdit
  | cleared
  | location
  | messageDelete
  | messageHide
  | ping
  | confirmation
deriving Repr, DecidableEq

/-- MessagePayload: a PayloadBundle plus the optional list of confirmations
received for it. -/
structure MessagePayload where
  id : String
  conversation : String
  from_ : String
  timestamp : Nat
  type : PayloadBundleType
  content : Content
  confirmations : Option (List ConfirmationWithSender) := none
deriving Repr, DecidableEq

/-- Modelled from the spec: stripAsset (src/utils, file not included in the
sources) strips binary preview data from asset content and leaves other
content untouched. -/
def stripAsset : Content → Content
  | Content.asset ac => Content.asset { ac with previewData := none }
  | c => c

/-- Helper appending one confirmation record to a message, creating the
confirmation list if absent (the push inside the CONFIRMATION handler). -/
def appendConfirmation (m : MessagePayload) (cws : ConfirmationWithSender) : MessagePayload :=
  { m with confirmations := some ((m.confirmations.getD []) ++ [cws]) }

/-- Loop of the CLEARED handler: walks the snapshot of cached messages and
deletes, keyed by each matching message's own id field, every message whose
conversation equals the cleared conversation id. -/
def clearFold (conversationId : String) (snapshot : List (String × MessagePayload))
    (messages : LRUCache MessagePayload) : LRUCache MessagePayload :=
  snapshot.foldl
    (fun ms entry =>
      if entry.2.conversation == conversationId then ms.delete entry.2.id else ms)
    messages

/-- Message Projector: the event handlers registered by attachListeners,
folded into one function from an inbound payload to the updated message
cache. The CONFIRMATION handler's loop over moreMessageIds mirrors the
source's for-in loop, which iterates the array's index keys ("0", "1", ...)
rather than its elements. -/
def projectEvent (messages : LRUCache MessagePayload) (payload : MessagePayload) :
    LRUCache MessagePayload :=
  match payload.type with
  | PayloadBundleType.text =>
      let payload :=
        match payload.content with
        | Content.text tc =>
            match tc.linkPreviews with
            | some previews =>
                { payload with
                    content := Content.text { tc with linkPreviews := some (previews.map stripLinkPreview) } }
            | none => payload
        | _ => payload
      messages.set payload.id payload
  | PayloadBundleType.asset =>
      let (metaPayload, messages) := messages.get payload.id
      let payload :=
        match metaPayload with
        | some mp =>
            match payload.content, mp.content with
            | Content.asset ac, Content.asset mc =>
                { payload with content := Content.asset { ac with original := mc.original } }
            | _, _ => payload
        | none => payload
      let payload := { payload with content := stripAsset payload.content }
      messages.set payload.id payload
  | PayloadBundleType.assetMeta => messages.set payload.id payload
  | PayloadBundleType.assetImage => messages.set payload.id payload
  | PayloadBundleType.messageEdit =>
      match payload.content with
      | Content.edited ec => (messages.set payload.id payload).delete ec.originalMessageId
      | _ => messages.set payload.id payload
  | PayloadBundleType.cleared =>
      match payload.content with
      | Content.cleared conversationId => clearFold conversationId messages.getAll messages
      | _ => messages
  | PayloadBundleType.location => messages.set payload.id payload
  | PayloadBundleType.messageDelete =>
      match payload.content with
      | Content.deleted messageId => messages.delete messageId
      | _ => messages
  | PayloadBundleType.messageHide =>
      match payload.content with
      | Content.hidden messageId => messages.delete messageId
      | _ => messages
  | PayloadBundleType.ping => messages.set payload.id payload
  | PayloadBundleType.confirmation =>
      match payload.content with
      | Content.confirmation cc =>
          let cws : ConfirmationWithSender :=
            { type := cc.type, firstMessageId := cc.firstMessageId,
              moreMessageIds := cc.moreMessageIds, from_ := payload.from_ }
          let (messageToConfirm, messages) := messages.get cc.firstMessageId
          let messages :=
            match messageToConfirm with
            | some m =>
                let m := appendConfirmation m cws
                messages.set m.id m
            | none => messages
          match cc.moreMessageIds with
          | some ids =>
              (List.range ids.length).foldl
                (fun ms i =>
                  let (furtherMessageToConfirm, ms) := ms.get (toString i)
                  match furtherMessageToConfirm with
                  | some m => ms.set m.id (appendConfirmation m cws)
                  | none => ms)
                messages
          | none => messages
      | _ => messages

/-- Backend endpoint descriptor (name plus REST and websocket URLs). -/
structure BackendData where
  name : String
  rest : String
  ws : String
deriving Repr, DecidableEq

/-- Production backend profile of the external API client, modelled as an
opaque-valued constant. -/
def productionBackend : BackendData :=
  { name := "production", rest := "https://prod-nginz-https.wire.com", ws := "wss://prod-nginz-ssl.wire.com" }

/-- Staging backend profile of the external API client, modelled as an
opaque-valued constant. -/
def stagingBackend : BackendData :=
  { name := "staging", rest := "https://staging-nginz-https.zinfra.io", ws := "wss://staging-nginz-ssl.zinfra.io" }

/-- Backend resolution: a named profile string resolves "production"/"prod"
to the production profile and every other name to staging; an absent
selector resolves to staging; an explicit descriptor is used as given. -/
def parseBackend : Option (Sum String BackendData) → BackendData
  | some (Sum.inl s) =>
      if s == "production" || s == "prod" then productionBackend else stagingBackend
  | none => stagingBackend
  | some (Sum.inr b) => b

/-- Options accepted by createInstance; loginData is opaque to the registry
(it is only forwarded to the Messaging Client). -/
structure InstanceCreationOptions where
  backend : Option String := none
  customBackend : Option BackendData := none
  deviceClass : Option String := none
  deviceLabel : Option String := none
  deviceName : Option String := none
  instanceName : Option String := none
  loginData : String
deriving Repr, DecidableEq

/-- One simulated messaging client under test: its id, display name, backend
descriptor and its own message cache. The Messaging Client handle itself is
external; its observable interactions are modelled as explicit inputs and
call traces on each operation. -/
structure Instance where
  id : String
  name : String
  backendType : BackendData
  messages : LRUCache MessagePayload
deriving Repr, DecidableEq

/-- The instance registry: a bounded cache of live instances, capacity fixed
at construction (default 100). -/
structure InstanceService where
  maximumInstances : Nat
  cachedInstances : LRUCache Instance
deriving Repr, DecidableEq

/-- Registry-side effects performed on external collaborators during
deleteInstance, in order. -/
inductive RegistryAction where
  | logout (instanceId : String)
  | removeFromCache (instanceId : String)
deriving Repr, DecidableEq

/-- Instance lookup: returns the instance (marking it most-recently-used) or
none; the source throws a not-found error on none, which callers surface. -/
def InstanceService.getInstance (svc : InstanceService) (instanceId : String) :
    Option Instance × InstanceService :=
  let (r, c) := svc.cachedInstances.get instanceId
  (r, { svc with cachedInstances := c })

/-- Error message thrown by getInstance when the id is not registered. -/
def instanceNotFoundMessage (instanceId : String) : String :=
  "Instance \"" ++ instanceId ++ "\" not found."

/-- instanceExists: true iff the id is currently registered. -/
def InstanceService.instanceExists (svc : InstanceService) (instanceId : String) : Bool :=
  ((svc.cachedInstances.get instanceId).1).isSome

/-- deleteInstance: resolves the instance (not-found error when unknown),
logs its Messaging Client out, then removes it from the registry. The first
component is the thrown error or the ordered collaborator/registry actions;
the second is the registry state afterwards. -/
def InstanceService.deleteInstance (svc : InstanceService) (instanceId : String) :
    Except String (List RegistryAction) × InstanceService :=
  match svc.getInstance instanceId with
  | (none, svc') => (Except.error (instanceNotFoundMessage instanceId), svc')
  | (some inst, svc') =>
      (Except.ok [RegistryAction.logout inst.id, RegistryAction.removeFromCache instanceId],
       { svc' with cachedInstances := svc'.cachedInstances.delete instanceId })

/-- Outcome of the Messaging Client's login call: success, or a rejection
optionally carrying a backend response message plus a raw error message. -/
structure LoginError where
  responseMessage : Option String
  message : String
deriving Repr, DecidableEq

/-- Error surfaced by createInstance for a rejected login: the backend
response message when present, otherwise the raw error is rethrown. -/
def loginFailureMessage (e : LoginError) : String :=
  match e.responseMessage with
  | some m => "Backend error: " ++ m
  | none => e.message

/-- createInstance: resolves the backend (an explicitly named backend takes
precedence over a custom descriptor; JS truthiness makes an empty backend
string fall through), performs login via the Messaging Client (whose outcome
is the loginResult input), and only on success registers a fresh instance
with an empty message cache under the freshly generated id. instanceId is
the generated UUID and messageCacheCapacity the message cache's default
capacity, both produced by external collaborators. -/
def InstanceService.createInstance (svc : InstanceService) (options : InstanceCreationOptions)
    (instanceId : String) (loginResult : Except LoginError Unit) (messageCacheCapacity : Nat) :
    Except String String × InstanceService :=
  let backendType :=
    parseBackend
      (match options.backend with
       | some b => if b == "" then options.customBackend.map Sum.inr else some (Sum.inl b)
       | none => options.customBackend.map Sum.inr)
  match loginResult with
  | Except.error e => (Except.error (loginFailureMessage e), svc)
  | Except.ok _ =>
      let inst : Instance :=
        { id := instanceId,
          name := options.instanceName.getD "",
          backendType := backendType,
          messages := { capacity := messageCacheCapacity, entries := [] } }
      (Except.ok instanceId,
       { svc with cachedInstances := svc.cachedInstances.set instanceId inst })

/-- getMessages: all cached messages of the instance whose conversation field
matches the requested conversation id. -/
def getMessages (inst : Instance) (conversationId : String) : List MessagePayload :=
  (inst.messages.getAll.map (fun p => p.2)).filter (fun m => m.conversation == conversationId)

/-- sendText: builds a text payload for the conversation (the builder
generates freshId as its message id), sends it, and, when a link preview is
given, re-sends the same message id with the preview attached and strips the
preview's binary image data; the sent message is inserted into the message
cache under its own id immediately. The message-level timer call and the
send itself are collaborator calls; send returns the built payload. -/
def sendText (inst : Instance) (conversationId : String) (message : String)
    (linkPreview : Option LinkPreview) (mentions : Option (List String)) (quote : Option String)
    (_expectsReadConfirmation : Option Bool) (_expireAfterMillis : Nat)
    (freshId : String) (sender : String) (ts : Nat) : Instance × String :=
  let payload : MessagePayload :=
    { id := freshId, conversation := conversationId, from_ := sender, timestamp := ts,
      type := PayloadBundleType.text,
      content := Content.text { text := message, linkPreviews := none, mentions := mentions, quote := quote } }
  let sentMessage := payload
  match linkPreview with
  | none =>
      ({ inst with messages := inst.messages.set sentMessage.id sentMessage }, sentMessage.id)
  | some lp =>
      let editedWithPreviewPayload : MessagePayload :=
        { sentMessage with
            content := Content.text
              { text := message, linkPreviews := some [lp], mentions := mentions, quote := quote } }
      let sentMessage := editedWithPreviewPayload
      let sentMessage :=
        match sentMessage.content with
        | Content.text tc =>
            match tc.linkPreviews with
            | some previews =>
                { sentMessage with
                    content := Content.text { tc with linkPreviews := some (previews.map stripLinkPreview) } }
            | none => sentMessage
        | _ => sentMessage
      ({ inst with messages := inst.messages.set sentMessage.id sentMessage }, sentMessage.id)

/-- sendEditedText: builds an edited-text payload replacing
originalMessageId (the builder generates freshId as the new message id),
sends it (re-sending under the same new id when a link preview is given,
then stripping the preview's binary image data), stores the edited message
in the cache under the ORIGINAL message id, and returns the new id. -/
def sendEditedText (inst : Instance) (conversationId : String) (originalMessageId : String)
    (newMessageText : String) (newLinkPreview : Option LinkPreview)
    (newMentions : Option (List String)) (newQuote : Option String)
    (_expectsReadConfirmation : Option Bool)
    (freshId : String) (sender : String) (ts : Nat) : Instance × String :=
  let editedPayload : MessagePayload :=
    { id := freshId, conversation := conversationId, from_ := sender, timestamp := ts,
      type := PayloadBundleType.messageEdit,
      content := Content.edited
        { originalMessageId := originalMessageId, text := newMessageText,
          linkPreviews := none, mentions := newMentions, quote := newQuote } }
  let editedMessage := editedPayload
  match newLinkPreview with
  | none =>
      ({ inst with messages := inst.messages.set originalMessageId editedMessage }, editedMessage.id)
  | some lp =>
      let editedWithPreviewPayload : MessagePayload :=
        { editedMessage with
            content := Content.edited
              { originalMessageId := originalMessageId, text := newMessageText,
                linkPreviews := some [lp], mentions := newMentions, quote := newQuote } }
      let editedMessage := editedWithPreviewPayload
      let editedMessage :=
        match editedMessage.content with
        | Content.edited ec =>
            match ec.linkPreviews with
            | some previews =>
                { editedMessage with
                    content := Content.edited { ec with linkPreviews := some (previews.map stripLinkPreview) } }
            | none => editedMessage
        | _ => editedMessage
      ({ inst with messages := inst.messages.set originalMessageId editedMessage }, editedMessage.id)

/-- Calls made to the Messaging Client by the ephemeral confirmation flows,
in order. -/
inductive ClientCall where
  | sendConfirmation (conversationId : String) (firstMessageId : String) (ctype : Nat)
      (moreMessageIds : Option (List String))
  | deleteMessageEveryone (conversationId : String) (messageId : String) (froms : List String)
deriving Repr, DecidableEq

/-- Error message thrown by the ephemeral confirmation flows for an unknown
target message id. -/
def messageNotFoundMessage (messageId : String) : String :=
  "Message with ID \"" ++ messageId ++ "\" not found."

/-- Loop of the ephemeral confirmation flows over the further target ids:
each must be cached (the thrown error names the FIRST id, as in the source)
and is deleted for everyone at its sender. -/
def ephemeralFurtherDeletes (inst : Instance) (conversationId : String) (firstMessageId : String) :
    List String → List ClientCall → Except String String × List ClientCall
  | [], acc => (Except.ok inst.name, acc)
  | messageId :: rest, acc =>
      match lookupPure inst.messages messageId with
      | none => (Except.error (messageNotFoundMessage firstMessageId), acc)
      | some furtherMessage =>
          ephemeralFurtherDeletes inst conversationId firstMessageId rest
            (acc ++ [ClientCall.deleteMessageEveryone conversationId messageId [furtherMessage.from_]])

/-- Shared body of sendEphemeralConfirmationDelivered (ctype 0) and
sendEphemeralConfirmationRead (ctype 1): requires the first target message to
be cached (not-found error otherwise, before anything is sent), then sends
the confirmation, deletes the first message for everyone, and deletes each
further target (each of which must be cached). Returns the outcome and the
ordered Messaging Client calls actually made. -/
def sendEphemeralConfirmation (ctype : Nat) (inst : Instance) (conversationId : String)
    (firstMessageId : String) (moreMessageIds : Option (List String)) :
    Except String String × List ClientCall :=
  match lookupPure inst.messages firstMessageId with
  | none => (Except.error (messageNotFoundMessage firstMessageId), [])
  | some message =>
      let calls :=
        [ClientCall.sendConfirmation conversationId firstMessageId ctype moreMessageIds,
         ClientCall.deleteMessageEveryone conversationId firstMessageId [message.from_]]
      match moreMessageIds with
      | some ids =>
          if ids.length != 0 then
            ephemeralFurtherDeletes inst conversationId firstMessageId ids calls
          else (Except.ok inst.name, calls)
      | none => (Except.ok inst.name, calls)

/-- sendEphemeralConfirmationDelivered (confirmation type 0). -/
def sendEphemeralConfirmationDelivered (inst : Instance) (conversationId : String)
    (firstMessageId : String) (moreMessageIds : Option (List String)) :
    Except String String × List ClientCall :=
  sendEphemeralConfirmation 0 inst conversationId firstMessageId moreMessageIds

/-- sendEphemeralConfirmationRead (confirmation type 1). -/
def sendEphemeralConfirmationRead (inst : Instance) (conversationId : String)
    (firstMessageId : String) (moreMessageIds : Option (List String)) :
    Except String String × List ClientCall :=
  sendEphemeralConfirmation 1 inst conversationId firstMessageId moreMessageIds

/-- Text carried by a content payload, when it is a text content. -/
def contentText : Content → Option String
  | Content.text tc => some tc.text
  | _ => none

/-- Original-message id and new text carried by a content payload, when it is
an edited-text content. -/
def editedTextOf : Content → Option (String × String)
  | Content.edited ec => some (ec.originalMessageId, ec.text)
  | _ => none

/-- Concrete cached text message with id A, used to instantiate the edit
projection property. -/
def textMsgW : MessagePayload :=
  { id := "A", conversation := "c1", from_ := "alice", timestamp := 1,
    type := PayloadBundleType.text, content := Content.text { text := "hello" } }

/-- Concrete edit event with new id B replacing id A. -/
def editPayloadW : MessagePayload :=
  { id := "B", conversation := "c1", from_ := "alice", timestamp := 2,
    type := PayloadBundleType.messageEdit,
    content := Content.edited { originalMessageId := "A", text := "edited" } }

/-- Concrete message cache holding only the text message at id A. -/
def editCacheW : LRUCache MessagePayload :=
  { capacity := 100, entries := [("A", textMsgW)] }

/-- Concrete instance with an empty message cache. -/
def emptyInstanceW : Instance :=
  { id := "i1", name := "demo", backendType := stagingBackend,
    messages := { capacity := 100, entries := [] } }

/-- Concrete registry holding the single instance emptyInstanceW under id
i1. -/
def svcW : InstanceService :=
  { maximumInstances := 100,
    cachedInstances := { capacity := 100, entries := [("i1", emptyInstanceW)] } }

/-- Concrete empty registry. -/
def svcEmptyW : InstanceService :=
  { maximumInstances := 100, cachedInstances := { capacity := 100, entries := [] } }

/-- Concrete cached asset-metadata placeholder at id AS1. -/
def assetMetaW : MessagePayload :=
  { id := "AS1", conversation := "c1", from_ := "alice", timestamp := 5,
    type := PayloadBundleType.assetMeta,
    content := Content.asset { original := some "image-meta" } }

/-- Concrete asset-data event with the same id AS1 as the placeholder. -/
def assetDataW : MessagePayload :=
  { id := "AS1", conversation := "c1", from_ := "alice", timestamp := 6,
    type := PayloadBundleType.asset,
    content := Content.asset { uploadedData := some "bytes", previewData := some "preview-bytes" } }

/-- Concrete message cache holding the asset placeholder. -/
def assetCacheW : LRUCache MessagePayload :=
  { capacity := 100, entries := [("AS1", assetMetaW)] }

/-- Concrete messages for the clear-semantics scenario: two in conversation
c1, one in c2, each cached under its own id. -/
def clearMsg1W : MessagePayload :=
  { id := "x1", conversation := "c1", from_ := "alice", timestamp := 1,
    type := PayloadBundleType.text, content := Content.text { text := "one" } }

/-- Second concrete message of conversation c1 for the clear scenario. -/
def clearMsg2W : MessagePayload :=
  { id := "x2", conversation := "c1", from_ := "bob", timestamp := 2,
    type := PayloadBundleType.text, content := Content.text { text := "two" } }

/-- Concrete message of conversation c2 for the clear scenario. -/
def clearMsg3W : MessagePayload :=
  { id := "x3", conversation := "c2", from_ := "carol", timestamp := 3,
    type := PayloadBundleType.text, content := Content.text { text := "three" } }

/-- Concrete cache for the clear scenario (three messages, two conversations,
keys equal to ids). -/
def clearCacheW : LRUCache MessagePayload :=
  { capacity := 100,
    entries := [("x1", clearMsg1W), ("x2", clearMsg2W), ("x3", clearMsg3W)] }

/-- Concrete clear event for conversation c1. -/
def clearPayloadW : MessagePayload :=
  { id := "cl", conversation := "c1", from_ := "bob", timestamp := 4,
    type := PayloadBundleType.cleared, content := Content.cleared "c1" }

/-- Concrete cached message stored under a key (the edited original id
m-old) different from its own id field (m-new) — the state sendEditedText
produces. -/
def mismatchedMsgW : MessagePayload :=
  { id := "m-new", conversation := "c1", from_ := "alice", timestamp := 3,
    type := PayloadBundleType.messageEdit,
    content := Content.edited { originalMessageId := "m-old", text := "edited" } }

/-- Concrete cache whose single entry key (m-old) differs from the stored
message's id field (m-new). -/
def mismatchedCacheW : LRUCache MessagePayload :=
  { capacity := 100, entries := [("m-old", mismatchedMsgW)] }

/-- Concrete cached message m1 (primary confirmation target). -/
def confirmTargetM1 : MessagePayload :=
  { id := "m1", conversation := "c1", from_ := "alice", timestamp := 1,
    type := PayloadBundleType.text, content := Content.text { text := "one" } }

/-- Concrete cached message m3 (secondary confirmation target). -/
def confirmTargetM3 : MessagePayload :=
  { id := "m3", conversation := "c1", from_ := "alice", timestamp := 2,
    type := PayloadBundleType.text, content := Content.text { text := "three" } }

/-- Concrete message cache holding m1 and m3 but not m2. -/
def confirmCacheW : LRUCache MessagePayload :=
  { capacity := 100, entries := [("m1", confirmTargetM1), ("m3", confirmTargetM3)] }

/-- Concrete confirmation event with primary target m1 and secondary targets
m2 and m3. -/
def confirmEventW : MessagePayload :=
  { id := "cf", conversation := "c1", from_ := "bob", timestamp := 9,
    type := PayloadBundleType.confirmation,
    content := Content.confirmation
      { type := 0, firstMessageId := "m1", moreMessageIds := some ["m2", "m3"] } }

/-- The confirmation record the event should append (status plus sender). -/
def confirmRecordW : ConfirmationWithSender :=
  { type := 0, firstMessageId := "m1", moreMessageIds := some ["m2", "m3"], from_ := "bob" }

/-- Absence of a key in a cache is absence from its entry list. -/
theorem lookupPure_eq_none_iff {α : Type} (c : LRUCache α) (k : String) :
    lookupPure c k = none ↔ ∀ p ∈ c.entries, ¬p.1 = k := by
  unfold lookupPure
  rw [Option.map_eq_none', List.find?_eq_none]
  constructor
  · intro h p hp
    have := h p hp
    simpa using this
  · intro h p hp
    simpa using h p hp

/-- Deleting a key removes it from the cache. -/
theorem lookupPure_delete_self {α : Type} (c : LRUCache α) (k : String) :
    lookupPure (c.delete k) k = none := by
  rw [lookupPure_eq_none_iff]
  intro p hp
  have := List.of_mem_filter hp
  simpa using this

/-- Deleting a key leaves every other key's value unchanged. -/
theorem lookupPure_delete_ne {α : Type} (c : LRUCache α) (k k' : String) (h : k' ≠ k) :
    lookupPure (c.delete k) k' = lookupPure c k' := by
  unfold lookupPure LRUCache.delete
  have hpred :
      (fun q : String × α => decide ((!(q.1 == k)) = true ∧ (q.1 == k') = true)) =
        fun q : String × α => q.1 == k' := by
    funext q
    by_cases hq : q.1 = k'
    · subst hq
      simp [h]
    · simp [hq]
  rw [List.find?_filter, hpred]

/-- Setting a key stores its value (visible whenever the capacity is
positive). -/
theorem lookupPure_set_self {α : Type} (c : LRUCache α) (k : String) (v : α)
    (h : 1 ≤ c.capacity) : lookupPure (c.set k v) k = some v := by
  obtain ⟨n, hn⟩ : ∃ n, c.capacity = n + 1 := ⟨c.capacity - 1, by omega⟩
  unfold lookupPure LRUCache.set
  rw [hn, List.take_succ_cons, List.find?_cons_of_pos _ (by simp)]
  rfl

/-- Setting one key cannot make a different, previously absent key
present. -/
theorem lookupPure_set_preserve_none {α : Type} (c : LRUCache α) (k k' : String) (v : α)
    (hne : k' ≠ k) (h : lookupPure c k' = none) : lookupPure (c.set k v) k' = none := by
  rw [lookupPure_eq_none_iff] at h ⊢
  intro p hp
  unfold LRUCache.set at hp
  have hp' := List.take_subset _ _ hp
  rcases List.mem_cons.mp hp' with h1 | h1
  · intro hk
    rw [h1] at hk
    exact hne hk.symm
  · exact h p ((List.mem_filter.mp h1).1)

/-- After a set with positive capacity, the just-set key is held by exactly
one entry, carrying the new value. -/
theorem filter_set_self {α : Type} (c : LRUCache α) (k : String) (v : α)
    (h : 1 ≤ c.capacity) :
    (c.set k v).entries.filter (fun q => q.1 == k) = [(k, v)] := by
  obtain ⟨n, hn⟩ : ∃ n, c.capacity = n + 1 := ⟨c.capacity - 1, by omega⟩
  unfold LRUCache.set
  rw [hn, List.take_succ_cons, List.filter_cons, if_pos (by simp)]
  have : (List.take n (c.entries.filter (fun q => !(q.1 == k)))).filter
      (fun q => q.1 == k) = [] := by
    rw [List.filter_eq_nil_iff]
    intro p hp
    have := List.of_mem_filter (List.take_subset _ _ hp)
    simpa using this
  rw [this]

/-- A cache miss returns none and leaves the cache untouched. -/
theorem get_miss {α : Type} (c : LRUCache α) (k : String) (h : lookupPure c k = none) :
    c.get k = (none, c) := by
  unfold lookupPure at h
  rw [Option.map_eq_none'] at h
  unfold LRUCache.get
  rw [h]

/-- A cache hit returns the stored value and moves its entry to the front. -/
theorem get_hit {α : Type} (c : LRUCache α) (k : String) (v : α)
    (h : lookupPure c k = some v) :
    c.get k = (some v, { c with entries := (k, v) :: c.entries.filter (fun q => !(q.1 == k)) }) := by
  unfold lookupPure at h
  rw [Option.map_eq_some'] at h
  obtain ⟨p, hfind, hpv⟩ := h
  have hkey : p.1 = k := by
    have := List.find?_some hfind
    simpa using this
  unfold LRUCache.get
  rw [hfind]
  have hp : p = (k, v) := by
    cases p
    simp_all
  rw [hp]

/-- Entries after the CLEARED loop: an entry survives unless some snapshot
message of the cleared conversation has the entry's key as its id field. -/
theorem clearFold_entries (cid : String) :
    ∀ (snap : List (String × MessagePayload)) (c : LRUCache MessagePayload),
      (clearFold cid snap c).entries =
        c.entries.filter
          (fun q => !(snap.any (fun p => p.2.conversation == cid && q.1 == p.2.id)))
  | [], c => by
      simp [clearFold]
  | p :: snap, c => by
      have step :
          clearFold cid (p :: snap) c =
            clearFold cid snap (if p.2.conversation == cid then c.delete p.2.id else c) := rfl
      rw [step]
      cases hc : p.2.conversation == cid
      · rw [if_neg (by simp [hc])]
        rw [clearFold_entries cid snap c]
        apply List.filter_congr
        intro x _
        simp [hc]
      · rw [if_pos (by simp [hc])]
        rw [clearFold_entries cid snap (c.delete p.2.id)]
        unfold LRUCache.delete
        rw [List.filter_filter]
        apply List.filter_congr
        intro x _
        simp [hc, Bool.not_or, Bool.and_comm]

/-- Re-filtering by the same key predicate after a hit-move is the plain
filtered list. -/
theorem filter_ne_idem {α : Type} (l : List (String × α)) (k : String) (v : α) :
    ((k, v) :: l.filter (fun q => !(q.1 == k))).filter (fun q => !(q.1 == k)) =
      l.filter (fun q => !(q.1 == k)) := by
  rw [List.filter_cons, if_neg (by simp), List.filter_filter]
  apply List.filter_congr
  intro x _
  rw [Bool.and_self]

/-- deleteInstance on an unregistered id: the not-found error is surfaced and
the registry is unchanged. -/
theorem deleteInstance_miss (svc : InstanceService) (instanceId : String)
    (h : lookupPure svc.cachedInstances instanceId = none) :
    svc.deleteInstance instanceId =
      (Except.error (instanceNotFoundMessage instanceId), svc) := by
  unfold InstanceService.deleteInstance InstanceService.getInstance
  rw [get_miss _ _ h]

/-- deleteInstance on a registered id: the Messaging Client is logged out,
then the instance is removed from the registry. -/
theorem deleteInstance_hit (svc : InstanceService) (instanceId : String) (inst : Instance)
    (h : lookupPure svc.cachedInstances instanceId = some inst) :
    svc.deleteInstance instanceId =
      (Except.ok [RegistryAction.logout inst.id, RegistryAction.removeFromCache instanceId],
       { svc with cachedInstances := svc.cachedInstances.delete instanceId }) := by
  unfold InstanceService.deleteInstance InstanceService.getInstance
  rw [get_hit _ _ _ h]
  show (Except.ok [RegistryAction.logout inst.id, RegistryAction.removeFromCache instanceId],
      ({ maximumInstances := svc.maximumInstances,
         cachedInstances :=
           { capacity := svc.cachedInstances.capacity,
             entries :=
               ((instanceId, inst) ::
                   svc.cachedInstances.entries.filter (fun q => !(q.1 == instanceId))).filter
                 (fun q => !(q.1 == instanceId)) } } : InstanceService)) = _
  rw [filter_ne_idem]
  rfl

/-- C3: deleteInstance fails with a not-found error for every unregistered
id; for every registered id it logs the instance's Messaging Client out and
then removes the instance from the registry. -/
theorem deleteInstance_contract (svc : InstanceService) (instanceId : String) :
    (lookupPure svc.cachedInstances instanceId = none →
      svc.deleteInstance instanceId =
        (Except.error (instanceNotFoundMessage instanceId), svc)) ∧
    (∀ inst, lookupPure svc.cachedInstances instanceId = some inst →
      svc.deleteInstance instanceId =
        (Except.ok [RegistryAction.logout inst.id, RegistryAction.removeFromCache instanceId],
         { svc with cachedInstances := svc.cachedInstances.delete instanceId })) :=
  ⟨fun h => deleteInstance_miss svc instanceId h,
   fun inst h => deleteInstance_hit svc instanceId inst h⟩

/-- Witness for C3 at a concrete registry: i1 is registered (and removed with
a logout first), i-missing is not (and yields the not-found error). -/
theorem deleteInstance_contract_witness :
    (lookupPure svcW.cachedInstances "i-missing" = none ∧
      svcW.deleteInstance "i-missing" =
        (Except.error (instanceNotFoundMessage "i-missing"), svcW)) ∧
    (lookupPure svcW.cachedInstances "i1" = some emptyInstanceW ∧
      svcW.deleteInstance "i1" =
        (Except.ok [RegistryAction.logout "i1", RegistryAction.removeFromCache "i1"],
         { svcW with cachedInstances := svcW.cachedInstances.delete "i1" })) :=
  ⟨⟨by rfl, (deleteInstance_contract svcW "i-missing").1 (by rfl)⟩,
   ⟨by rfl, (deleteInstance_contract svcW "i1").2 emptyInstanceW (by rfl)⟩⟩

/-- C2 counterexample: deleting a never-created id throws a not-found error,
so delete is not the claimed never-throwing idempotent operation. -/
theorem deleteInstance_throws_on_unknown_id :
    (svcEmptyW.deleteInstance "i1").1 = Except.error (instanceNotFoundMessage "i1") := by
  rfl

/-- C2 amended: delete on an id absent from the registry (never created, or
already deleted) fails with a not-found error but leaves the registry state
unchanged, so the state after two deletes equals the state after one. -/
theorem deleteInstance_state_idempotent (svc : InstanceService) (instanceId : String) :
    (lookupPure svc.cachedInstances instanceId = none →
      svc.deleteInstance instanceId =
        (Except.error (instanceNotFoundMessage instanceId), svc)) ∧
    (∀ acts svc', svc.deleteInstance instanceId = (Except.ok acts, svc') →
      svc'.deleteInstance instanceId =
        (Except.error (instanceNotFoundMessage instanceId), svc')) := by
  constructor
  · exact fun h => deleteInstance_miss svc instanceId h
  · intro acts svc' h
    cases hl : lookupPure svc.cachedInstances instanceId with
    | none =>
        rw [deleteInstance_miss svc instanceId hl] at h
        cases h
    | some inst =>
        rw [deleteInstance_hit svc instanceId inst hl] at h
        injection h with h1 h2
        have habsent : lookupPure svc'.cachedInstances instanceId = none := by
          rw [← h2]
          exact lookupPure_delete_self _ _
        exact deleteInstance_miss svc' instanceId habsent

/-- Witness for C2 at a concrete registry: the first delete of i1 succeeds,
the second fails with not-found and leaves the state of the first delete
unchanged. -/
theorem deleteInstance_state_idempotent_witness :
    svcW.deleteInstance "i1" =
      (Except.ok [RegistryAction.logout "i1", RegistryAction.removeFromCache "i1"],
       { svcW with cachedInstances := svcW.cachedInstances.delete "i1" }) ∧
    ({ svcW with cachedInstances := svcW.cachedInstances.delete "i1" } :
        InstanceService).deleteInstance "i1" =
      (Except.error (instanceNotFoundMessage "i1"),
       { svcW with cachedInstances := svcW.cachedInstances.delete "i1" }) :=
  ⟨by rfl,
   (deleteInstance_state_idempotent svcW "i1").2
     [RegistryAction.logout "i1", RegistryAction.removeFromCache "i1"]
     { svcW with cachedInstances := svcW.cachedInstances.delete "i1" } (by rfl)⟩

/-- C4: when the Messaging Client's login is rejected, createInstance fails
with the login error and the registry is returned unchanged — in particular
nothing is registered under the freshly generated id. -/
theorem createInstance_login_rejected (svc : InstanceService)
    (options : InstanceCreationOptions) (instanceId : String) (e : LoginError) (cap : Nat) :
    svc.createInstance options instanceId (Except.error e) cap =
      (Except.error (loginFailureMessage e), svc) := by
  unfold InstanceService.createInstance
  rfl

/-- C9: for both ephemeral confirmation flows (delivered and read), an
uncached first target message id yields a not-found error naming the message
and no Messaging Client call is made. -/
theorem ephemeral_confirmation_unknown_first_message (inst : Instance)
    (conversationId firstMessageId : String) (moreMessageIds : Option (List String))
    (h : lookupPure inst.messages firstMessageId = none) :
    sendEphemeralConfirmationDelivered inst conversationId firstMessageId moreMessageIds =
        (Except.error (messageNotFoundMessage firstMessageId), []) ∧
    sendEphemeralConfirmationRead inst conversationId firstMessageId moreMessageIds =
        (Except.error (messageNotFoundMessage firstMessageId), []) := by
  unfold sendEphemeralConfirmationDelivered sendEphemeralConfirmationRead
    sendEphemeralConfirmation
  rw [h]
  exact ⟨rfl, rfl⟩

/-- Witness for C9: the instance with an empty message cache has no message
m-gone, and both flows fail without any client call. -/
theorem ephemeral_confirmation_unknown_first_message_witness :
    lookupPure emptyInstanceW.messages "m-gone" = none ∧
    sendEphemeralConfirmationDelivered emptyInstanceW "c1" "m-gone" (some ["m2"]) =
        (Except.error (messageNotFoundMessage "m-gone"), []) ∧
    sendEphemeralConfirmationRead emptyInstanceW "c1" "m-gone" (some ["m2"]) =
        (Except.error (messageNotFoundMessage "m-gone"), []) :=
  ⟨by rfl,
   (ephemeral_confirmation_unknown_first_message emptyInstanceW "c1" "m-gone"
       (some ["m2"]) (by rfl)).1,
   (ephemeral_confirmation_unknown_first_message emptyInstanceW "c1" "m-gone"
       (some ["m2"]) (by rfl)).2⟩

/-- C5: projecting an edit event with new id B whose original-message-id is A
(B distinct from A) over a cache holding a text message at A leaves the
edited content at B and no entry at A. -/
theorem edit_projection_moves_message (cache : LRUCache MessagePayload)
    (payload m : MessagePayload) (ec : EditedTextContent) (a b : String)
    (htype : payload.type = PayloadBundleType.messageEdit)
    (hcontent : payload.content = Content.edited ec)
    (horig : ec.originalMessageId = a) (hid : payload.id = b) (hne : b ≠ a)
    (hcached : lookupPure cache a = some m) (hm : m.type = PayloadBundleType.text)
    (hcap : 1 ≤ cache.capacity) :
    lookupPure (projectEvent cache payload) b = some payload ∧
    lookupPure (projectEvent cache payload) a = none := by
  have hproj : projectEvent cache payload = (cache.set b payload).delete a := by
    simp only [projectEvent, htype, hcontent, horig, hid]
  rw [hproj]
  exact ⟨by rw [lookupPure_delete_ne _ _ _ hne]; exact lookupPure_set_self cache b payload hcap,
         lookupPure_delete_self _ _⟩

/-- Witness for C5 at a concrete cache: the text message at A is replaced by
the edit event at B, and A is gone. -/
theorem edit_projection_moves_message_witness :
    lookupPure editCacheW "A" = some textMsgW ∧
    lookupPure (projectEvent editCacheW editPayloadW) "B" = some editPayloadW ∧
    lookupPure (projectEvent editCacheW editPayloadW) "A" = none :=
  ⟨by rfl,
   (edit_projection_moves_message editCacheW editPayloadW textMsgW
       { originalMessageId := "A", text := "edited" } "A" "B" (by rfl) (by rfl) (by rfl)
       (by rfl) (by decide) (by rfl) (by rfl) (by decide)).1,
   (edit_projection_moves_message editCacheW editPayloadW textMsgW
       { originalMessageId := "A", text := "edited" } "A" "B" (by rfl) (by rfl) (by rfl)
       (by rfl) (by decide) (by rfl) (by rfl) (by decide)).2⟩

/-- C6 counterexample: an entry stored under a key (m-old) different from its
message's id field (m-new) — the state sendEditedText produces — belongs to
conversation c1 yet survives a clear of c1, because the handler deletes by
the message's id field. -/
theorem clear_projection_counterexample :
    mismatchedMsgW.conversation = "c1" ∧
    lookupPure (projectEvent mismatchedCacheW clearPayloadW) "m-old" = some mismatchedMsgW :=
  ⟨rfl, rfl⟩

/-- C6 amended: on a cache whose entries have pairwise-distinct keys, each
equal to the stored message's own id, projecting a clear event removes
exactly the cached messages of the cleared conversation and keeps every
other message. -/
theorem clear_projection_removes_conversation (cache : LRUCache MessagePayload)
    (payload : MessagePayload) (cid : String)
    (htype : payload.type = PayloadBundleType.cleared)
    (hcontent : payload.content = Content.cleared cid)
    (hkeys : ∀ p ∈ cache.entries, p.1 = p.2.id)
    (hnodup : (cache.entries.map Prod.fst).Nodup) :
    (projectEvent cache payload).entries =
      cache.entries.filter (fun p => !(p.2.conversation == cid)) := by
  have hproj : projectEvent cache payload = clearFold cid cache.getAll cache := by
    simp only [projectEvent, htype, hcontent]
  rw [hproj, clearFold_entries]
  apply List.filter_congr
  intro q hq
  congr 1
  by_cases hc : q.2.conversation = cid
  · have h1 : (q.2.conversation == cid) = true := by simp [hc]
    rw [h1, List.any_eq_true]
    exact ⟨q, hq, by simp [hc, hkeys q hq]⟩
  · have h1 : (q.2.conversation == cid) = false := by simp [hc]
    rw [h1, List.any_eq_false]
    intro p hp hfp
    rw [Bool.and_eq_true] at hfp
    have hpc : p.2.conversation = cid := beq_iff_eq.mp hfp.1
    have hqp : q.1 = p.2.id := beq_iff_eq.mp hfp.2
    have hpq : p = q := by
      apply List.inj_on_of_nodup_map hnodup hp hq
      rw [hkeys p hp, ← hqp]
    rw [hpq] at hpc
    exact hc hpc

/-- Witness for C6 (amended) at the spec's concrete scenario: three cached
messages keyed by their own ids, two in c1 and one in c2; clearing c1 leaves
exactly the one c2 message. -/
theorem clear_projection_removes_conversation_witness :
    (∀ p ∈ clearCacheW.entries, p.1 = p.2.id) ∧
    (clearCacheW.entries.map Prod.fst).Nodup ∧
    (projectEvent clearCacheW clearPayloadW).entries =
      clearCacheW.entries.filter (fun p => !(p.2.conversation == "c1")) ∧
    (projectEvent clearCacheW clearPayloadW).entries = [("x3", clearMsg3W)] :=
  ⟨by decide, by decide,
   clear_projection_removes_conversation clearCacheW clearPayloadW "c1" (by rfl) (by rfl)
     (by decide) (by decide),
   by rfl⟩

/-- C8: projecting an asset-data event whose id matches a cached placeholder
holding asset metadata yields a single entry under that id whose content
carries the placeholder's original descriptor on the data payload with the
binary preview data stripped, replacing the placeholder. -/
theorem asset_data_merges_placeholder (cache : LRUCache MessagePayload)
    (payload mp : MessagePayload) (ac mc : AssetContent)
    (htype : payload.type = PayloadBundleType.asset)
    (hcontent : payload.content = Content.asset ac)
    (hcached : lookupPure cache payload.id = some mp)
    (hmp : mp.content = Content.asset mc)
    (hcap : 1 ≤ cache.capacity) :
    lookupPure (projectEvent cache payload) payload.id =
      some { payload with content := Content.asset { original := mc.original, uploadedData := ac.uploadedData, previewData := none } } ∧
    (projectEvent cache payload).entries.filter (fun q => q.1 == payload.id) =
      [(payload.id, { payload with content := Content.asset { original := mc.original, uploadedData := ac.uploadedData, previewData := none } })] := by
  have hproj : projectEvent cache payload =
      LRUCache.set
        { cache with
            entries := (payload.id, mp) :: cache.entries.filter (fun q => !(q.1 == payload.id)) }
        payload.id
        { payload with content := Content.asset { original := mc.original, uploadedData := ac.uploadedData, previewData := none } } := by
    simp only [projectEvent, htype]
    rw [get_hit _ _ _ hcached]
    simp only [hcontent, hmp, stripAsset]
  rw [hproj]
  exact ⟨lookupPure_set_self _ _ _ hcap, filter_set_self _ _ _ hcap⟩

/-- Witness for C8 at a concrete cache: the asset-data event for AS1 merges
the placeholder's original descriptor, strips the binary preview data, and
replaces the placeholder. -/
theorem asset_data_merges_placeholder_witness :
    lookupPure assetCacheW "AS1" = some assetMetaW ∧
    lookupPure (projectEvent assetCacheW assetDataW) "AS1" =
      some { assetDataW with content := Content.asset { original := some "image-meta", uploadedData := some "bytes", previewData := none } } ∧
    (projectEvent assetCacheW assetDataW).entries.filter (fun q => q.1 == "AS1") =
      [("AS1", { assetDataW with content := Content.asset { original := some "image-meta", uploadedData := some "bytes", previewData := none } })] :=
  ⟨by rfl,
   (asset_data_merges_placeholder assetCacheW assetDataW assetMetaW
       { uploadedData := some "bytes", previewData := some "preview-bytes" }
       { original := some "image-meta" } (by rfl) (by rfl) (by rfl) (by rfl) (by decide)).1,
   (asset_data_merges_placeholder assetCacheW assetDataW assetMetaW
       { uploadedData := some "bytes", previewData := some "preview-bytes" }
       { original := some "image-meta" } (by rfl) (by rfl) (by rfl) (by rfl) (by decide)).2⟩

/-- C7: a successful sendText on an instance with an (otherwise) empty
message cache immediately inserts the sent message, so getMessages for that
conversation returns exactly one message whose id is the returned id, whose
conversation is the target conversation, and whose content text is the sent
text. -/
theorem sendText_inserts_message (inst : Instance) (conversationId message : String)
    (linkPreview : Option LinkPreview) (mentions : Option (List String)) (quote : Option String)
    (erc : Option Bool) (timer : Nat) (freshId sender : String) (ts : Nat)
    (hempty : inst.messages.entries = []) (hcap : 1 ≤ inst.messages.capacity) :
    ∃ m,
      getMessages
          (sendText inst conversationId message linkPreview mentions quote erc timer
            freshId sender ts).1 conversationId = [m] ∧
      m.id =
        (sendText inst conversationId message linkPreview mentions quote erc timer
          freshId sender ts).2 ∧
      m.conversation = conversationId ∧ contentText m.content = some message := by
  obtain ⟨n, hn⟩ : ∃ n, inst.messages.capacity = n + 1 := ⟨inst.messages.capacity - 1, by omega⟩
  cases linkPreview with
  | none =>
      refine ⟨{ id := freshId, conversation := conversationId, from_ := sender, timestamp := ts,
                type := PayloadBundleType.text,
                content := Content.text
                  { text := message, linkPreviews := none, mentions := mentions, quote := quote } },
              ?_, rfl, rfl, rfl⟩
      simp [sendText, getMessages, LRUCache.set, LRUCache.getAll, hempty, hn]
  | some lp =>
      refine ⟨{ id := freshId, conversation := conversationId, from_ := sender, timestamp := ts,
                type := PayloadBundleType.text,
                content := Content.text
                  { text := message, linkPreviews := some [stripLinkPreview lp],
                    mentions := mentions, quote := quote } },
              ?_, rfl, rfl, rfl⟩
      simp [sendText, getMessages, LRUCache.set, LRUCache.getAll, hempty, hn]

/-- Witness for C7: sending the spec's "Hello from Jasmine" on a concrete
instance with an empty cache. -/
theorem sendText_inserts_message_witness :
    emptyInstanceW.messages.entries = [] ∧ 1 ≤ emptyInstanceW.messages.capacity ∧
    (∃ m,
      getMessages
          (sendText emptyInstanceW "conv-x" "Hello from Jasmine" none none none none 0
            "mid-1" "u1" 42).1 "conv-x" = [m] ∧
      m.id =
        (sendText emptyInstanceW "conv-x" "Hello from Jasmine" none none none none 0
          "mid-1" "u1" 42).2 ∧
      m.conversation = "conv-x" ∧ contentText m.content = some "Hello from Jasmine") :=
  ⟨by rfl, by decide,
   sendText_inserts_message emptyInstanceW "conv-x" "Hello from Jasmine" none none none none 0
     "mid-1" "u1" 42 (by rfl) (by decide)⟩

/-- C10: a successful sendEditedText stores the edited message in the cache
under the ORIGINAL message id being replaced — not under the freshly
generated id it returns — so afterwards the edited content sits at the
original id and there is no entry at the returned new id. -/
theorem sendEditedText_stores_under_original_id (inst : Instance)
    (conversationId originalMessageId newMessageText : String)
    (newLinkPreview : Option LinkPreview) (newMentions : Option (List String))
    (newQuote : Option String) (erc : Option Bool) (freshId sender : String) (ts : Nat)
    (hfresh : lookupPure inst.messages freshId = none)
    (hne : freshId ≠ originalMessageId)
    (hcap : 1 ≤ inst.messages.capacity) :
    (sendEditedText inst conversationId originalMessageId newMessageText newLinkPreview
        newMentions newQuote erc freshId sender ts).2 = freshId ∧
    (∃ m,
      lookupPure
          (sendEditedText inst conversationId originalMessageId newMessageText newLinkPreview
            newMentions newQuote erc freshId sender ts).1.messages originalMessageId = some m ∧
      m.id = freshId ∧ editedTextOf m.content = some (originalMessageId, newMessageText)) ∧
    lookupPure
        (sendEditedText inst conversationId originalMessageId newMessageText newLinkPreview
          newMentions newQuote erc freshId sender ts).1.messages freshId = none := by
  cases newLinkPreview with
  | none =>
      exact ⟨rfl,
        ⟨_, lookupPure_set_self _ _ _ hcap, rfl, rfl⟩,
        lookupPure_set_preserve_none _ _ _ _ hne hfresh⟩
  | some lp =>
      exact ⟨rfl,
        ⟨_, lookupPure_set_self _ _ _ hcap, rfl, rfl⟩,
        lookupPure_set_preserve_none _ _ _ _ hne hfresh⟩

/-- Witness for C10 on a concrete instance with an empty cache: the edit
returns new-1 but stores the edited content under orig-1. -/
theorem sendEditedText_stores_under_original_id_witness :
    lookupPure emptyInstanceW.messages "new-1" = none ∧
    (sendEditedText emptyInstanceW "conv-x" "orig-1" "edited text" none none none none
        "new-1" "u1" 43).2 = "new-1" ∧
    (∃ m,
      lookupPure
          (sendEditedText emptyInstanceW "conv-x" "orig-1" "edited text" none none none none
            "new-1" "u1" 43).1.messages "orig-1" = some m ∧
      m.id = "new-1" ∧ editedTextOf m.content = some ("orig-1", "edited text")) ∧
    lookupPure
        (sendEditedText emptyInstanceW "conv-x" "orig-1" "edited text" none none none none
          "new-1" "u1" 43).1.messages "new-1" = none :=
  ⟨by rfl,
   (sendEditedText_stores_under_original_id emptyInstanceW "conv-x" "orig-1" "edited text"
       none none none none "new-1" "u1" 43 (by rfl) (by decide) (by decide)).1,
   (sendEditedText_stores_under_original_id emptyInstanceW "conv-x" "orig-1" "edited text"
       none none none none "new-1" "u1" 43 (by rfl) (by decide) (by decide)).2.1,
   (sendEditedText_stores_under_original_id emptyInstanceW "conv-x" "orig-1" "edited text"
       none none none none "new-1" "u1" 43 (by rfl) (by decide) (by decide)).2.2⟩

/-- C1: evaluating the CONFIRMATION handler at a confirmation event with
primary target m1 and secondary targets m2 and m3, where m1 and m3 are
cached: m1 gains the one confirmation record, but m3 is left without any
confirmation (and m2 has no entry), because the handler's for-in loop
iterates the array indices of moreMessageIds instead of the ids
themselves. -/
theorem confirmation_secondary_ids_ignored :
    lookupPure (projectEvent confirmCacheW confirmEventW) "m1" =
      some (appendConfirmation confirmTargetM1 confirmRecordW) ∧
    lookupPure (projectEvent confirmCacheW confirmEventW) "m3" = some confirmTargetM3 ∧
    confirmTargetM3.confirmations = none ∧
    lookupPure (projectEvent confirmCacheW confirmEventW) "m2" = none :=
  ⟨rfl, rfl, rfl, rfl⟩
